import Mathlib

/-!
Verification of the feedback-timing state machine of MoodLyft-Mirror.

The definitions below are a shallow embedding of
`src/tts_manager.py` (classes `TTSManager` and `EmotionFeedbackManager`)
and of the constants of `src/config.py`.  Timestamps and confidences are
rationals; Python's `time.time()` calls become explicit `now` parameters,
and `random.choice` becomes an explicit index supplied by the caller
(`randomChoice l r` picks element `r % l.length`, failing only on an
empty list, where Python would raise).  Python dicts appear as
association lists in insertion order.
-/

namespace MoodLyft

/-- `COMPLIMENT_COOLDOWN = 8` from `src/config.py`. -/
def COMPLIMENT_COOLDOWN : ℚ := 8

/-- `NO_FACE_COOLDOWN = 5` from `src/config.py`. -/
def NO_FACE_COOLDOWN : ℚ := 5

/-- `clamp` from `src/utils.py`: `max(min_val, min(max_val, value))`. -/
def clamp (value minVal maxVal : ℚ) : ℚ :=
  max minVal (min maxVal value)

/-- Python dict lookup on an insertion-ordered association list
(`d[k]` / `k in d`). -/
def dictGet {β : Type} (k : String) : List (String × β) → Option β
  | [] => none
  | (k', v) :: rest => if k' = k then some v else dictGet k rest

/-- `random.choice` modelled with an explicit index: returns the
`r % l.length`-th element, `none` exactly on the empty list (where the
Python call raises `IndexError`). -/
def randomChoice (l : List String) (r : Nat) : Option String :=
  l.get? (r % l.length)

/-- `COMPLIMENTS["happy"]` from `src/config.py`. -/
def happyCompliments : List String :=
  ["Your radiant smile lights up the entire room! ✨",
   "That genuine happiness is absolutely contagious! 🌟",
   "You have such a warm, inviting presence! 💫",
   "Your joy creates beautiful ripples of positivity! 🌈",
   "Keep shining with that magnificent energy! ⭐"]

/-- `COMPLIMENTS["neutral"]` from `src/config.py`. -/
def neutralCompliments : List String :=
  ["Your calm presence brings such peaceful energy! 🧘",
   "There\x27s incredible strength in your composure! 💪",
   "Your steady energy is truly admirable! 🌿",
   "You bring perfect balance wherever you go! ⚖️",
   "Your mindful presence is deeply appreciated! 🕯️"]

/-- `COMPLIMENTS["sad"]` from `src/config.py`. -/
def sadCompliments : List String :=
  ["You\x27re so much stronger than you realize! 💪",
   "Every storm passes - brighter days ahead! 🌅",
   "Your resilience is truly inspiring to witness! 🦋",
   "Better days are coming - believe in yourself! 🌱",
   "You\x27re never alone in this beautiful journey! 🤝"]

/-- `COMPLIMENTS["angry"]` from `src/config.py`. -/
def angryCompliments : List String :=
  ["Channel that powerful energy into positive change! ⚡",
   "Your passion can truly move mountains! 🏔️",
   "Transform that fire into unstoppable motivation! 🔥",
   "Your intensity can spark absolutely amazing things! 💥",
   "Use that incredible power to achieve greatness! 🚀"]

/-- `COMPLIMENTS["surprise"]` from `src/config.py`. -/
def surpriseCompliments : List String :=
  ["Your sense of wonder is so refreshing! 🌺",
   "Stay curious and keep exploring life! 🔍",
   "Life is overflowing with amazing discoveries! 🗺️",
   "Your enthusiasm is beautifully infectious! 🎉",
   "Keep embracing new and exciting experiences! 🎭"]

/-- `COMPLIMENTS["fear"]` from `src/config.py`. -/
def fearCompliments : List String :=
  ["Courage isn\x27t fearlessness - it\x27s facing fear head-on! 🦸",
   "You\x27re so much braver than you believe! 🛡️",
   "Every step forward conquers fear completely! 👣",
   "Your strength shines through any uncertainty! ✨",
   "Fear is temporary - your courage is permanent! 💎"]

/-- `COMPLIMENTS["disgust"]` from `src/config.py`. -/
def disgustCompliments : List String :=
  ["Your standards show incredible self-respect! 👑",
   "Trust your instincts - they serve you perfectly! 🧭",
   "Your boundaries protect your inner peace! 🛡️",
   "Standing firm shows true inner strength! 🌳",
   "Your authenticity is genuinely powerful! 💯"]

/-- The `COMPLIMENTS` dict of `src/config.py`, keys in source order. -/
def COMPLIMENTS : List (String × List String) :=
  [("happy", happyCompliments),
   ("neutral", neutralCompliments),
   ("sad", sadCompliments),
   ("angry", angryCompliments),
   ("surprise", surpriseCompliments),
   ("fear", fearCompliments),
   ("disgust", disgustCompliments)]

/-- The mutable fields of `EmotionFeedbackManager`
(`src/tts_manager.py`, `__init__`). -/
structure FeedbackState where
  lastComplimentTime : ℚ
  lastNoFaceMessageTime : ℚ
  consecutiveEmotions : List (String × ℚ)
  emotionStabilityThreshold : ℚ
  lastEmotionChangeTime : ℚ
deriving DecidableEq

/-- `EmotionFeedbackManager.__init__`: compliment and no-face timers at 0,
empty tracking map, stability threshold 1, change time set to now. -/
def initFeedbackState (now : ℚ) : FeedbackState :=
  ⟨0, 0, [], 1, now⟩

/-- `EmotionFeedbackManager.should_give_compliment`.  Returns the decision
together with the possibly-updated state (the method inserts the emotion
into `consecutive_emotions` when it is not yet tracked). -/
def shouldGiveCompliment (s : FeedbackState) (emotion : String)
    (confidence now : ℚ) : Bool × FeedbackState :=
  if now - s.lastComplimentTime < COMPLIMENT_COOLDOWN then (false, s)
  else if confidence < 0.6 then (false, s)
  else
    match dictGet emotion s.consecutiveEmotions with
    | none =>
        (false, { s with consecutiveEmotions :=
                    s.consecutiveEmotions ++ [(emotion, now)] })
    | some t0 =>
        if s.emotionStabilityThreshold ≤ now - t0 then (true, s)
        else (false, s)

/-- `EmotionFeedbackManager.give_compliment`.  On approval it draws from
`COMPLIMENTS.get(emotion, COMPLIMENTS["neutral"])`, stamps
`last_compliment_time = now` and clears the tracking map. -/
def giveCompliment (s : FeedbackState) (emotion : String)
    (confidence now : ℚ) (r : Nat) : Option String × FeedbackState :=
  match shouldGiveCompliment s emotion confidence now with
  | (false, s1) => (none, s1)
  | (true, s1) =>
      match randomChoice ((dictGet emotion COMPLIMENTS).getD neutralCompliments) r with
      | none => (none, s1)
      | some c =>
          (some c, { s1 with lastComplimentTime := now,
                             consecutiveEmotions := [] })

/-- The stale-entry test of `update_emotion_tracking`:
`tracked_emotion != emotion and current_time - start_time > 1.0`. -/
def isStale (emotion : String) (now : ℚ) (p : String × ℚ) : Bool :=
  decide (p.1 ≠ emotion) && decide (1 < now - p.2)

/-- `EmotionFeedbackManager.update_emotion_tracking`. -/
def updateEmotionTracking (s : FeedbackState) (emotion : String)
    (confidence now : ℚ) : FeedbackState :=
  if confidence < 0.6 then { s with consecutiveEmotions := [] }
  else
    let s1 :=
      match dictGet emotion s.consecutiveEmotions with
      | none => { s with consecutiveEmotions := [(emotion, now)],
                         lastEmotionChangeTime := now }
      | some _ => s
    { s1 with consecutiveEmotions :=
        s1.consecutiveEmotions.filter (fun p => ! isStale emotion now p) }

/-- The fixed message list of
`EmotionFeedbackManager.handle_no_face_detected`. -/
def noFaceMessages : List String :=
  ["I\x27m here when you\x27re ready! 👋",
   "Looking for your beautiful face! 😊",
   "Come back when you\x27re ready to smile! ✨",
   "Waiting to see that wonderful expression! 🌟"]

/-- `EmotionFeedbackManager.handle_no_face_detected`. -/
def handleNoFaceDetected (s : FeedbackState) (now : ℚ) (r : Nat) :
    Option String × FeedbackState :=
  if now - s.lastNoFaceMessageTime < NO_FACE_COOLDOWN then (none, s)
  else
    match randomChoice noFaceMessages r with
    | none => (none, s)
    | some m => (some m, { s with lastNoFaceMessageTime := now })

/-- One `give_compliment` call: observed label, confidence, timestamp,
and the index drawn by the random source. -/
structure GiveCall where
  emotion : String
  confidence : ℚ
  now : ℚ
  rand : Nat
deriving DecidableEq

/-- Run a sequence of `give_compliment` calls, collecting the returned
messages and the final state. -/
def runGive : FeedbackState → List GiveCall → List (Option String) × FeedbackState
  | s, [] => ([], s)
  | s, c :: cs =>
      let p := giveCompliment s c.emotion c.confidence c.now c.rand
      let q := runGive p.2 cs
      (p.1 :: q.1, q.2)

/-- An operation on the feedback state: `observe` is `give_compliment`,
`track` is `update_emotion_tracking`, `absence` is
`handle_no_face_detected`. -/
inductive FOp where
  | observe (emotion : String) (confidence now : ℚ) (r : Nat)
  | track (emotion : String) (confidence now : ℚ)
  | absence (now : ℚ) (r : Nat)
deriving DecidableEq

/-- Whether an operation is an `observe` (`give_compliment`) call. -/
def FOp.isObserve : FOp → Bool
  | .observe _ _ _ _ => true
  | _ => false

/-- State effect of one operation. -/
def applyOp (s : FeedbackState) : FOp → FeedbackState
  | .observe e c t r => (giveCompliment s e c t r).2
  | .track e c t => updateEmotionTracking s e c t
  | .absence t r => (handleNoFaceDetected s t r).2

/-- Run a sequence of operations. -/
def runOps : FeedbackState → List FOp → FeedbackState
  | s, [] => s
  | s, op :: ops => runOps (applyOp s op) ops

/-- The label of the most recent qualifying (`confidence ≥ 0.6`)
`track` operation, `none` after a disqualifying one. -/
def lastQualifyingFrom (q : Option String) : List FOp → Option String
  | [] => q
  | .track e c _ :: ops =>
      lastQualifyingFrom (if c < 0.6 then none else some e) ops
  | _ :: ops => lastQualifyingFrom q ops

/-- The state of `TTSManager` relevant to `speak_async`: engine
availability and the bounded (`maxsize=5`) speech queue. -/
structure TTSState where
  available : Bool
  speechQueue : List String
deriving DecidableEq

/-- Python whitespace: the characters blanked by `str.strip()` /
recognised by `str.isspace()`, per CPython's Unicode database
(0x09-0x0D, 0x1C-0x1F, space, NEL, NBSP, OGHAM SPACE MARK,
U+2000-U+200A, LINE/PARAGRAPH SEPARATOR, NARROW NBSP, MMSP,
IDEOGRAPHIC SPACE). -/
def pyIsSpace (c : Char) : Bool :=
  let n := c.toNat
  (0x09 ≤ n && n ≤ 0x0D) || (0x1C ≤ n && n ≤ 0x1F) || n = 0x20 ||
  n = 0x85 || n = 0xA0 || n = 0x1680 ||
  (0x2000 ≤ n && n ≤ 0x200A) ||
  n = 0x2028 || n = 0x2029 || n = 0x202F || n = 0x205F || n = 0x3000

/-- The guard `not text or not text.strip()` of `speak_async`: the text is
empty or consists only of characters that Python's `strip()` removes. -/
def isBlank (text : String) : Bool :=
  text.toList.all pyIsSpace

/-- `TTSManager.speak_async`: reject blank text, reject when the engine is
unavailable, clear the queue when more than 3 messages are pending, then
do a non-blocking put (which fails only on a full queue). -/
def speakAsync (ts : TTSState) (text : String) : Bool × TTSState :=
  if isBlank text then (false, ts)
  else if ts.available = false then (false, ts)
  else
    let q1 := if 3 < ts.speechQueue.length then [] else ts.speechQueue
    if q1.length < 5 then (true, { ts with speechQueue := q1 ++ [text] })
    else (false, { ts with speechQueue := q1 })

/-! ### Helper lemmas -/

theorem dictGet_nil {β : Type} {k : String} :
    dictGet k ([] : List (String × β)) = none := rfl

theorem dictGet_cons {β : Type} {k a : String} {b : β} {l : List (String × β)} :
    dictGet k ((a, b) :: l) = if a = k then some b else dictGet k l := rfl

theorem dictGet_mem {β : Type} {k : String} {v : β} :
    ∀ {l : List (String × β)}, dictGet k l = some v → (k, v) ∈ l := by
  intro l
  induction l with
  | nil => intro h; simp [dictGet_nil] at h
  | cons p rest ih =>
      obtain ⟨a, b⟩ := p
      intro h
      rw [dictGet_cons] at h
      by_cases hk : a = k
      · rw [if_pos hk] at h
        obtain rfl := Option.some.inj h
        subst hk
        exact List.mem_cons_self _ _
      · rw [if_neg hk] at h
        exact List.mem_cons_of_mem _ (ih h)

theorem dictGet_append_single {β : Type} {k k' : String} {v v' : β} :
    ∀ {l : List (String × β)}, dictGet k' (l ++ [(k, v)]) = some v' →
      dictGet k' l = some v' ∨ (k' = k ∧ v' = v) := by
  intro l
  induction l with
  | nil =>
      intro h
      rw [List.nil_append, dictGet_cons] at h
      by_cases hk : k = k'
      · rw [if_pos hk] at h
        exact Or.inr ⟨hk.symm, (Option.some.inj h).symm⟩
      · rw [if_neg hk, dictGet_nil] at h
        exact absurd h (by simp)
  | cons p rest ih =>
      obtain ⟨a, b⟩ := p
      intro h
      rw [List.cons_append, dictGet_cons] at h
      by_cases hk : a = k'
      · rw [if_pos hk] at h
        exact Or.inl (by rw [dictGet_cons, if_pos hk]; exact h)
      · rw [if_neg hk] at h
        rcases ih h with h' | h'
        · exact Or.inl (by rw [dictGet_cons, if_neg hk]; exact h')
        · exact Or.inr h'

theorem dictGet_append_self {β : Type} {k : String} {v : β} :
    ∀ {l : List (String × β)}, dictGet k l = none →
      dictGet k (l ++ [(k, v)]) = some v := by
  intro l
  induction l with
  | nil => intro _; rw [List.nil_append, dictGet_cons, if_pos rfl]
  | cons p rest ih =>
      obtain ⟨a, b⟩ := p
      intro h
      rw [dictGet_cons] at h
      by_cases hk : a = k
      · rw [if_pos hk] at h; exact absurd h (by simp)
      · rw [if_neg hk] at h
        rw [List.cons_append, dictGet_cons, if_neg hk]
        exact ih h

theorem randomChoice_mem {l : List String} {r : Nat} {m : String}
    (h : randomChoice l r = some m) : m ∈ l :=
  List.get?_mem h

theorem randomChoice_some_of_ne_nil {l : List String} (r : Nat) (h : l ≠ []) :
    ∃ m, randomChoice l r = some m ∧ m ∈ l := by
  have hlen : 0 < l.length := List.length_pos.mpr h
  have hmod : r % l.length < l.length := Nat.mod_lt _ hlen
  exact ⟨l.get ⟨r % l.length, hmod⟩, List.get?_eq_get hmod, List.get_mem _ _ _⟩

theorem shouldGive_of_cooldown {s : FeedbackState} {e : String} {cf t : ℚ}
    (h : t - s.lastComplimentTime < COMPLIMENT_COOLDOWN) :
    shouldGiveCompliment s e cf t = (false, s) := by
  unfold shouldGiveCompliment
  rw [if_pos h]

theorem shouldGive_of_lowconf {s : FeedbackState} {e : String} {cf t : ℚ}
    (h : cf < 0.6) : shouldGiveCompliment s e cf t = (false, s) := by
  unfold shouldGiveCompliment
  by_cases hc : t - s.lastComplimentTime < COMPLIMENT_COOLDOWN
  · rw [if_pos hc]
  · rw [if_neg hc, if_pos h]

theorem shouldGive_true_elim {s s' : FeedbackState} {e : String} {cf t : ℚ}
    (h : shouldGiveCompliment s e cf t = (true, s')) :
    COMPLIMENT_COOLDOWN ≤ t - s.lastComplimentTime ∧ (0.6 : ℚ) ≤ cf ∧
    (∃ τ, dictGet e s.consecutiveEmotions = some τ ∧
      s.emotionStabilityThreshold ≤ t - τ) ∧ s' = s := by
  unfold shouldGiveCompliment at h
  split at h
  · exact absurd h (by simp)
  · rename_i hcd
    split at h
    · exact absurd h (by simp)
    · rename_i hcf
      split at h
      · exact absurd h (by simp)
      · rename_i τ hd
        split at h
        · rename_i hs
          injection h with _ h2
          exact ⟨not_lt.mp hcd, not_lt.mp hcf, ⟨τ, hd, hs⟩, h2.symm⟩
        · exact absurd h (by simp)

theorem shouldGive_false_elim {s s' : FeedbackState} {e : String} {cf t : ℚ}
    (h : shouldGiveCompliment s e cf t = (false, s')) :
    s' = s ∨ (dictGet e s.consecutiveEmotions = none ∧
      ¬ t - s.lastComplimentTime < COMPLIMENT_COOLDOWN ∧ ¬ cf < 0.6 ∧
      s' = { s with consecutiveEmotions :=
               s.consecutiveEmotions ++ [(e, t)] }) := by
  unfold shouldGiveCompliment at h
  split at h
  · injection h with _ h2; exact Or.inl h2.symm
  · rename_i hcd
    split at h
    · injection h with _ h2; exact Or.inl h2.symm
    · rename_i hcf
      split at h
      · rename_i hd
        injection h with _ h2
        exact Or.inr ⟨hd, hcd, hcf, h2.symm⟩
      · rename_i τ hd
        split at h
        · exact absurd h (by simp)
        · injection h with _ h2; exact Or.inl h2.symm

theorem giveCompliment_some_elim {s s' : FeedbackState} {e m : String}
    {cf t : ℚ} {r : Nat} (h : giveCompliment s e cf t r = (some m, s')) :
    COMPLIMENT_COOLDOWN ≤ t - s.lastComplimentTime ∧ (0.6 : ℚ) ≤ cf ∧
    (∃ τ, dictGet e s.consecutiveEmotions = some τ ∧
      s.emotionStabilityThreshold ≤ t - τ) ∧
    m ∈ (dictGet e COMPLIMENTS).getD neutralCompliments ∧
    s' = { s with lastComplimentTime := t, consecutiveEmotions := [] } := by
  unfold giveCompliment at h
  split at h
  · exact absurd h (by simp)
  · rename_i s1 hsg
    split at h
    · exact absurd h (by simp)
    · rename_i c hrc
      injection h with h1 h2
      obtain rfl := Option.some.inj h1
      obtain ⟨h8, hcf, hex, rfl⟩ := shouldGive_true_elim hsg
      exact ⟨h8, hcf, hex, randomChoice_mem hrc, h2.symm⟩

theorem giveCompliment_none_elim {s s' : FeedbackState} {e : String}
    {cf t : ℚ} {r : Nat} (h : giveCompliment s e cf t r = (none, s')) :
    s'.lastComplimentTime = s.lastComplimentTime ∧
    s'.lastNoFaceMessageTime = s.lastNoFaceMessageTime ∧
    s'.emotionStabilityThreshold = s.emotionStabilityThreshold := by
  unfold giveCompliment at h
  split at h
  · rename_i s1 hsg
    injection h with _ h2
    subst h2
    rcases shouldGive_false_elim hsg with rfl | ⟨-, -, -, rfl⟩ <;>
      exact ⟨rfl, rfl, rfl⟩
  · rename_i s1 hsg
    split at h
    · injection h with _ h2
      subst h2
      obtain ⟨-, -, -, rfl⟩ := shouldGive_true_elim hsg
      exact ⟨rfl, rfl, rfl⟩
    · exact absurd h (by simp)

theorem giveCompliment_consec_cases (s : FeedbackState) (e : String)
    (cf t : ℚ) (r : Nat) :
    (giveCompliment s e cf t r).2.consecutiveEmotions = s.consecutiveEmotions
    ∨ ((giveCompliment s e cf t r).2.consecutiveEmotions
          = s.consecutiveEmotions ++ [(e, t)]
        ∧ dictGet e s.consecutiveEmotions = none)
    ∨ (giveCompliment s e cf t r).2.consecutiveEmotions = [] := by
  unfold giveCompliment
  split
  · rename_i s1 hsg
    rcases shouldGive_false_elim hsg with rfl | ⟨hnone, -, -, rfl⟩
    · exact Or.inl rfl
    · exact Or.inr (Or.inl ⟨rfl, hnone⟩)
  · rename_i s1 hsg
    split
    · obtain ⟨-, -, -, rfl⟩ := shouldGive_true_elim hsg
      exact Or.inl rfl
    · exact Or.inr (Or.inr rfl)

theorem giveCompliment_dict_elim {s : FeedbackState} {e e' : String}
    {cf t τ : ℚ} {r : Nat}
    (h : dictGet e' (giveCompliment s e cf t r).2.consecutiveEmotions = some τ) :
    dictGet e' s.consecutiveEmotions = some τ ∨ (e' = e ∧ τ = t) := by
  rcases giveCompliment_consec_cases s e cf t r with hc | ⟨hc, -⟩ | hc
  · rw [hc] at h; exact Or.inl h
  · rw [hc] at h
    exact dictGet_append_single h
  · rw [hc, dictGet_nil] at h; cases h

theorem giveCompliment_LCT_mono (s : FeedbackState) (e : String)
    (cf t : ℚ) (r : Nat) :
    s.lastComplimentTime ≤ (giveCompliment s e cf t r).2.lastComplimentTime := by
  rcases hgc : giveCompliment s e cf t r with ⟨o, s'⟩
  cases o with
  | none =>
      exact le_of_eq (giveCompliment_none_elim hgc).1.symm
  | some m =>
      obtain ⟨h8, -, -, -, rfl⟩ := giveCompliment_some_elim hgc
      show s.lastComplimentTime ≤ t
      have : (0 : ℚ) < COMPLIMENT_COOLDOWN := by norm_num [COMPLIMENT_COOLDOWN]
      linarith

theorem giveCompliment_thr (s : FeedbackState) (e : String)
    (cf t : ℚ) (r : Nat) :
    (giveCompliment s e cf t r).2.emotionStabilityThreshold
      = s.emotionStabilityThreshold := by
  rcases hgc : giveCompliment s e cf t r with ⟨o, s'⟩
  cases o with
  | none =>
      exact (giveCompliment_none_elim hgc).2.2
  | some m =>
      obtain ⟨-, -, -, -, rfl⟩ := giveCompliment_some_elim hgc
      rfl

theorem runGive_cons (s : FeedbackState) (c : GiveCall) (cs : List GiveCall) :
    runGive s (c :: cs)
      = ((giveCompliment s c.emotion c.confidence c.now c.rand).1
           :: (runGive (giveCompliment s c.emotion c.confidence c.now c.rand).2 cs).1,
         (runGive (giveCompliment s c.emotion c.confidence c.now c.rand).2 cs).2) :=
  rfl

theorem runGive_success_time :
    ∀ (cs : List GiveCall) (s : FeedbackState) (j : Nat) (cj : GiveCall)
      (m : String), cs.get? j = some cj →
      (runGive s cs).1.get? j = some (some m) →
      s.lastComplimentTime + COMPLIMENT_COOLDOWN ≤ cj.now := by
  intro cs
  induction cs with
  | nil => intro s j cj m hc _; simp at hc
  | cons c cs ih =>
      intro s j cj m hc ho
      rw [runGive_cons] at ho
      cases j with
      | zero =>
          obtain rfl := Option.some.inj hc
          rw [List.get?_cons_zero] at ho
          obtain ho := Option.some.inj ho
          rcases hgc : giveCompliment s c.emotion c.confidence c.now c.rand
            with ⟨o, s1⟩
          rw [hgc] at ho
          subst ho
          have h8 := (giveCompliment_some_elim hgc).1
          linarith
      | succ j' =>
          rw [List.get?_cons_succ] at hc ho
          have := ih _ j' cj m hc ho
          have hmono := giveCompliment_LCT_mono s c.emotion c.confidence c.now c.rand
          linarith

theorem runGive_two_success :
    ∀ (cs : List GiveCall) (s : FeedbackState) (i j : Nat)
      (ci cj : GiveCall) (mi mj : String), i < j →
      cs.get? i = some ci → cs.get? j = some cj →
      (runGive s cs).1.get? i = some (some mi) →
      (runGive s cs).1.get? j = some (some mj) →
      ci.now + COMPLIMENT_COOLDOWN ≤ cj.now := by
  intro cs
  induction cs with
  | nil => intro s i j ci cj mi mj _ hci _ _ _; simp at hci
  | cons c cs ih =>
      intro s i j ci cj mi mj hij hci hcj hoi hoj
      rw [runGive_cons] at hoi hoj
      cases i with
      | zero =>
          obtain rfl := Option.some.inj hci
          rw [List.get?_cons_zero] at hoi
          obtain hoi := Option.some.inj hoi
          obtain ⟨j', rfl⟩ : ∃ j', j = j' + 1 := ⟨j - 1, by omega⟩
          rw [List.get?_cons_succ] at hcj hoj
          rcases hgc : giveCompliment s c.emotion c.confidence c.now c.rand
            with ⟨o, s1⟩
          rw [hgc] at hoi hoj
          subst hoi
          obtain ⟨-, -, -, -, rfl⟩ := giveCompliment_some_elim hgc
          have := runGive_success_time cs _ j' cj mj hcj hoj
          simpa using this
      | succ i' =>
          obtain ⟨j', rfl⟩ : ∃ j', j = j' + 1 := ⟨j - 1, by omega⟩
          rw [List.get?_cons_succ] at hci hcj
          rw [List.get?_cons_succ] at hoi hoj
          exact ih _ i' j' ci cj mi mj (by omega) hci hcj hoi hoj

theorem runGive_stable_none :
    ∀ (cs : List GiveCall) (s : FeedbackState) (e : String) (t0 : ℚ),
      (∀ τ, dictGet e s.consecutiveEmotions = some τ → t0 ≤ τ) →
      (∀ c ∈ cs, t0 ≤ c.now) →
      ∀ j cj, cs.get? j = some cj → cj.emotion = e →
        cj.now < t0 + s.emotionStabilityThreshold →
        (runGive s cs).1.get? j = some none := by
  intro cs
  induction cs with
  | nil => intro s e t0 _ _ j cj hcj _ _; simp at hcj
  | cons c cs ih =>
      intro s e t0 hinv htime j cj hcj hem hlt
      rw [runGive_cons]
      cases j with
      | zero =>
          obtain rfl := Option.some.inj hcj
          rw [List.get?_cons_zero]
          rcases hgc : giveCompliment s c.emotion c.confidence c.now c.rand
            with ⟨o, s1⟩
          cases o with
          | none => rfl
          | some m =>
              obtain ⟨-, -, ⟨τ, hd, hs⟩, -, -⟩ := giveCompliment_some_elim hgc
              rw [hem] at hd
              have ht0 := hinv τ hd
              exact absurd hlt (by linarith)
      | succ j' =>
          rw [List.get?_cons_succ] at hcj
          rw [List.get?_cons_succ]
          apply ih _ e t0 ?_ ?_ j' cj hcj hem ?_
          · intro τ hτ
            rcases giveCompliment_dict_elim hτ with h' | ⟨-, rfl⟩
            · exact hinv τ h'
            · exact htime c (List.mem_cons_self _ _)
          · intro c' hc'
            exact htime c' (List.mem_cons_of_mem _ hc')
          · rwa [giveCompliment_thr]

theorem eq_single_of_mem_of_len_le_one {α : Type} {p : α} :
    ∀ {l : List α}, p ∈ l → l.length ≤ 1 → l = [p] := by
  intro l
  cases l with
  | nil => intro h; exact absurd h (List.not_mem_nil _)
  | cons a l' =>
      intro hmem hlen
      have : l' = [] := by
        cases l' with
        | nil => rfl
        | cons b l'' => simp at hlen
      subst this
      rcases List.mem_singleton.mp hmem with rfl
      rfl

theorem updateTrack_step {s : FeedbackState} {e : String} {cf now : ℚ}
    {q : Option String}
    (hlen : s.consecutiveEmotions.length ≤ 1)
    (_hkey : ∀ p ∈ s.consecutiveEmotions, q = some p.1) :
    (updateEmotionTracking s e cf now).consecutiveEmotions.length ≤ 1 ∧
    ∀ p ∈ (updateEmotionTracking s e cf now).consecutiveEmotions,
      (if cf < (0.6 : ℚ) then none else some e) = some p.1 := by
  unfold updateEmotionTracking
  by_cases hc : cf < (0.6 : ℚ)
  · simp [hc]
  · simp only [if_neg hc]
    rcases hd : dictGet e s.consecutiveEmotions with _ | τ
    · simp [List.filter, isStale]
    · have hsingle := eq_single_of_mem_of_len_le_one (dictGet_mem hd) hlen
      simp only [hsingle]
      simp [List.filter, isStale]

theorem updateTrack_prune {s : FeedbackState} {e : String} {cf now : ℚ}
    {p : String × ℚ}
    (hp : p ∈ (updateEmotionTracking s e cf now).consecutiveEmotions)
    (hne : p.1 ≠ e) : now - p.2 ≤ 1 := by
  unfold updateEmotionTracking at hp
  by_cases hc : cf < (0.6 : ℚ)
  · rw [if_pos hc] at hp; simp at hp
  · rw [if_neg hc] at hp
    obtain ⟨-, hf⟩ := List.mem_filter.mp hp
    simp only [isStale, Bool.not_eq_true', Bool.and_eq_false_iff,
      decide_eq_false_iff_not] at hf
    rcases hf with hf | hf
    · exact absurd hne hf
    · linarith [not_lt.mp hf]

theorem handleNoFace_frame (s : FeedbackState) (now : ℚ) (r : Nat) :
    (handleNoFaceDetected s now r).2.lastComplimentTime = s.lastComplimentTime ∧
    (handleNoFaceDetected s now r).2.consecutiveEmotions = s.consecutiveEmotions ∧
    (handleNoFaceDetected s now r).2.emotionStabilityThreshold
      = s.emotionStabilityThreshold := by
  unfold handleNoFaceDetected
  split
  · exact ⟨rfl, rfl, rfl⟩
  · split
    · exact ⟨rfl, rfl, rfl⟩
    · exact ⟨rfl, rfl, rfl⟩

theorem handleNoFace_none_iff (s : FeedbackState) (now : ℚ) (r : Nat) :
    (handleNoFaceDetected s now r).1 = none
      ↔ now - s.lastNoFaceMessageTime < NO_FACE_COOLDOWN := by
  unfold handleNoFaceDetected
  by_cases hc : now - s.lastNoFaceMessageTime < NO_FACE_COOLDOWN
  · simp [hc]
  · obtain ⟨m, hm, -⟩ :=
      @randomChoice_some_of_ne_nil noFaceMessages r (by simp [noFaceMessages])
    rw [if_neg hc, hm]
    simp [hc]

theorem handleNoFace_some_elim {s s' : FeedbackState} {now : ℚ} {r : Nat}
    {m : String} (h : handleNoFaceDetected s now r = (some m, s')) :
    m ∈ noFaceMessages ∧ s'.lastNoFaceMessageTime = now := by
  unfold handleNoFaceDetected at h
  split at h
  · exact absurd h (by simp)
  · split at h
    · exact absurd h (by simp)
    · rename_i m' hm'
      injection h with h1 h2
      obtain rfl := Option.some.inj h1
      subst h2
      exact ⟨randomChoice_mem hm', rfl⟩

theorem runOps_cons (s : FeedbackState) (op : FOp) (ops : List FOp) :
    runOps s (op :: ops) = runOps (applyOp s op) ops := rfl

theorem runOps_noObserve_inv :
    ∀ (ops : List FOp) (s : FeedbackState) (q : Option String),
      (∀ op ∈ ops, op.isObserve = false) →
      s.consecutiveEmotions.length ≤ 1 →
      (∀ p ∈ s.consecutiveEmotions, q = some p.1) →
      (runOps s ops).consecutiveEmotions.length ≤ 1 ∧
      ∀ p ∈ (runOps s ops).consecutiveEmotions,
        lastQualifyingFrom q ops = some p.1 := by
  intro ops
  induction ops with
  | nil => intro s q _ h1 h2; exact ⟨h1, h2⟩
  | cons op ops ih =>
      intro s q hops h1 h2
      cases op with
      | observe e c t r =>
          exact absurd (hops _ (List.mem_cons_self _ _))
            (by simp [FOp.isObserve])
      | track e c t =>
          obtain ⟨h1', h2'⟩ := @updateTrack_step s e c t q h1 h2
          exact ih _ _ (fun op hop => hops _ (List.mem_cons_of_mem _ hop)) h1' h2'
      | absence t r =>
          have hf := (handleNoFace_frame s t r).2.1
          apply ih _ q (fun op hop => hops _ (List.mem_cons_of_mem _ hop))
          · show ((handleNoFaceDetected s t r).2).consecutiveEmotions.length ≤ 1
            rw [hf]; exact h1
          · intro p hp
            rw [show applyOp s (FOp.absence t r) = (handleNoFaceDetected s t r).2 from rfl,
              hf] at hp
            exact h2 p hp

example :
    (giveCompliment (initFeedbackState 0) "happy" 0.9 100 0).2.consecutiveEmotions
      = [("happy", 100)] := by
  norm_num [giveCompliment, shouldGiveCompliment, initFeedbackState, dictGet,
    COMPLIMENT_COOLDOWN]

example :
    (giveCompliment ⟨0, 0, [("happy", 100)], 1, 0⟩ "happy" 0.9 101 0).1
      = some "Your radiant smile lights up the entire room! ✨" := by
  norm_num [giveCompliment, shouldGiveCompliment, dictGet, COMPLIMENT_COOLDOWN,
    randomChoice, COMPLIMENTS, happyCompliments, neutralCompliments]

example :
    (runOps (initFeedbackState 0)
      [.observe "sad" 0.9 100 0, .observe "happy" 0.9 101 0]).consecutiveEmotions
      = [("sad", 100), ("happy", 101)] := by
  norm_num +decide [runOps, applyOp, giveCompliment, shouldGiveCompliment,
    initFeedbackState, dictGet, COMPLIMENT_COOLDOWN]

example : (speakAsync ⟨true, ["a", "b", "c", "d"]⟩ "hi").2.speechQueue = ["hi"] := by
  norm_num [speakAsync, isBlank]
  decide

example : speakAsync ⟨true, []⟩ "  " = (false, ⟨true, []⟩) := by
  norm_num [speakAsync, isBlank]
  decide

example : speakAsync ⟨true, []⟩ "\x0b" = (false, ⟨true, []⟩) := by
  norm_num [speakAsync, isBlank]
  decide

example : speakAsync ⟨true, []⟩ "\x0c  " = (false, ⟨true, []⟩) := by
  norm_num [speakAsync, isBlank]
  decide

theorem clamp_lt_threshold_iff (cf : ℚ) :
    clamp cf 0 1 < (0.6 : ℚ) ↔ cf < 0.6 := by
  unfold clamp
  constructor
  · intro h
    by_contra hc
    push_neg at hc
    have h1 : (0.6 : ℚ) ≤ min 1 cf := le_min (by norm_num) hc
    have h2 : min 1 cf ≤ max 0 (min 1 cf) := le_max_right _ _
    linarith
  · intro h
    have h1 : min 1 cf ≤ cf := min_le_right _ _
    exact max_lt (by norm_num) (by linarith)

theorem speakAsync_false_spec (ts : TTSState) (text : String) :
    ((speakAsync ts text).1 = false
      ↔ (isBlank text = true ∨ ts.available = false))
    ∧ ((speakAsync ts text).1 = false → (speakAsync ts text).2 = ts) := by
  unfold speakAsync
  by_cases hb : isBlank text = true
  · simp [hb]
  · rw [Bool.not_eq_true] at hb
    by_cases ha : ts.available = false
    · simp [hb, ha]
    · rw [Bool.not_eq_false] at ha
      rw [hb]
      simp only [Bool.false_eq_true, if_false]
      rw [ha]
      simp only [Bool.true_eq_false, if_false]
      by_cases h3 : 3 < ts.speechQueue.length
      · simp [h3, hb, ha]
      · simp only [h3, if_false]
        rw [if_pos (by omega)]
        simp [hb, ha]

/-! ### Claim theorems -/

/-- Claim C1: for every sequence of `give_compliment` calls with
non-decreasing timestamps, any two calls that both return a message are
at least `COMPLIMENT_COOLDOWN` seconds apart. -/
theorem cooldown_monotonicity (s : FeedbackState) (cs : List GiveCall)
    (_hmono : List.Pairwise (fun a b => a.now ≤ b.now) cs)
    (i j : Nat) (ci cj : GiveCall) (mi mj : String)
    (hij : i < j) (hci : cs.get? i = some ci) (hcj : cs.get? j = some cj)
    (hoi : (runGive s cs).1.get? i = some (some mi))
    (hoj : (runGive s cs).1.get? j = some (some mj)) :
    COMPLIMENT_COOLDOWN ≤ cj.now - ci.now := by
  have := runGive_two_success cs s i j ci cj mi mj hij hci hcj hoi hoj
  linarith

/-- Witness for C1: on a concrete four-call run, calls 1 and 3 both
return messages and lie 99 seconds apart. -/
theorem cooldown_monotonicity_witness :
    COMPLIMENT_COOLDOWN
      ≤ (GiveCall.mk "happy" 0.9 200 0).now - (GiveCall.mk "happy" 0.9 101 0).now := by
  refine cooldown_monotonicity (initFeedbackState 0)
    [⟨"happy", 0.9, 100, 0⟩, ⟨"happy", 0.9, 101, 0⟩,
     ⟨"happy", 0.9, 150, 0⟩, ⟨"happy", 0.9, 200, 0⟩]
    ?_ 1 3 ⟨"happy", 0.9, 101, 0⟩ ⟨"happy", 0.9, 200, 0⟩
    "Your radiant smile lights up the entire room! ✨"
    "Your radiant smile lights up the entire room! ✨"
    (by omega) rfl rfl ?_ ?_
  · norm_num [List.pairwise_cons]
  · norm_num +decide [runGive, giveCompliment, shouldGiveCompliment,
      initFeedbackState, dictGet, COMPLIMENT_COOLDOWN, randomChoice,
      COMPLIMENTS, happyCompliments]
  · norm_num +decide [runGive, giveCompliment, shouldGiveCompliment,
      initFeedbackState, dictGet, COMPLIMENT_COOLDOWN, randomChoice,
      COMPLIMENTS, happyCompliments]

/-- Counterexample to claim C2 as stated: two `give_compliment` calls
with different labels leave two entries in `consecutive_emotions`,
because `should_give_compliment` inserts a new label without clearing. -/
theorem single_slot_counterexample :
    ¬ ((runOps (initFeedbackState 0)
          [FOp.observe "sad" 0.9 100 0,
           FOp.observe "happy" 0.9 101 0]).consecutiveEmotions.length ≤ 1) := by
  norm_num +decide [runOps, applyOp, giveCompliment, shouldGiveCompliment,
    initFeedbackState, dictGet, COMPLIMENT_COOLDOWN]

/-- Claim C2 (amended): over sequences of `update_emotion_tracking` and
`handle_no_face_detected` operations from the initial state, the tracking
map holds at most one entry, keyed by the most recently observed
qualifying label; and after any `update_emotion_tracking` call every
entry with a different label has age at most 1 second.  (`give_compliment`
itself may insert a second entry, see the counterexample.) -/
theorem single_slot_amended (t : ℚ) (ops : List FOp)
    (hops : ∀ op ∈ ops, op.isObserve = false) :
    ((runOps (initFeedbackState t) ops).consecutiveEmotions.length ≤ 1
      ∧ ∀ p ∈ (runOps (initFeedbackState t) ops).consecutiveEmotions,
          lastQualifyingFrom none ops = some p.1)
    ∧ ∀ (s : FeedbackState) (e : String) (cf now : ℚ) (p : String × ℚ),
        p ∈ (updateEmotionTracking s e cf now).consecutiveEmotions →
        p.1 ≠ e → now - p.2 ≤ 1 := by
  constructor
  · exact runOps_noObserve_inv ops (initFeedbackState t) none hops
      (by simp [initFeedbackState]) (by simp [initFeedbackState])
  · intro s e cf now p hp hne
    exact updateTrack_prune hp hne

/-- Witness for C2 (amended) on a concrete three-operation run. -/
theorem single_slot_amended_witness :
    (runOps (initFeedbackState 0)
        [FOp.track "happy" 0.9 10, FOp.absence 12 0,
         FOp.track "sad" 0.8 13]).consecutiveEmotions.length ≤ 1 :=
  (single_slot_amended 0 _ (by decide)).1.1

/-- Counterexample to claim C3 as stated: a low-confidence
`give_compliment` call returns `None` but leaves the tracking map
untouched (and hence non-empty) instead of clearing it. -/
theorem confidence_floor_counterexample :
    (giveCompliment ⟨0, 0, [("sad", 50)], 1, 0⟩ "happy" 0 100 0).1 = none
    ∧ ¬ ((giveCompliment ⟨0, 0, [("sad", 50)], 1, 0⟩
            "happy" 0 100 0).2.consecutiveEmotions = []) := by
  constructor
  · norm_num +decide [giveCompliment, shouldGiveCompliment, dictGet,
      COMPLIMENT_COOLDOWN]
  · norm_num +decide [giveCompliment, shouldGiveCompliment, dictGet,
      COMPLIMENT_COOLDOWN]

/-- Claim C3 (amended): a `give_compliment` call with confidence below
0.6 returns `None` and leaves the state entirely unchanged; the clearing
of `consecutive_emotions` on low confidence is performed by the separate
`update_emotion_tracking` operation, which leaves the map empty. -/
theorem confidence_floor_amended (s : FeedbackState) (e : String)
    (cf now : ℚ) (r : Nat) (h : cf < 0.6) :
    giveCompliment s e cf now r = (none, s)
    ∧ (updateEmotionTracking s e cf now).consecutiveEmotions = [] := by
  constructor
  · unfold giveCompliment
    rw [shouldGive_of_lowconf h]
  · show (updateEmotionTracking s e cf now).consecutiveEmotions = []
    unfold updateEmotionTracking
    rw [if_pos h]

/-- Witness for C3 (amended) at confidence 0. -/
theorem confidence_floor_amended_witness :
    giveCompliment (initFeedbackState 0) "happy" 0 100 0
      = (none, initFeedbackState 0)
    ∧ (updateEmotionTracking (initFeedbackState 0)
        "happy" 0 100).consecutiveEmotions = [] :=
  confidence_floor_amended (initFeedbackState 0) "happy" 0 100 0 (by norm_num)

/-- Claim C4: a label absent from tracking cannot trigger a message; its
first qualifying sighting records `first_seen = t0`, and no later call
for that label before `t0 + emotionStabilityThreshold` returns a
message. -/
theorem stability_requirement (s : FeedbackState) (e : String)
    (cf t0 : ℚ) (r : Nat)
    (habs : dictGet e s.consecutiveEmotions = none) :
    (giveCompliment s e cf t0 r).1 = none
    ∧ (¬ t0 - s.lastComplimentTime < COMPLIMENT_COOLDOWN → ¬ cf < 0.6 →
        dictGet e ((giveCompliment s e cf t0 r).2).consecutiveEmotions
          = some t0)
    ∧ ∀ (cs : List GiveCall), (∀ c ∈ cs, t0 ≤ c.now) →
        ∀ j cj, cs.get? j = some cj → cj.emotion = e →
          cj.now < t0 + s.emotionStabilityThreshold →
          (runGive s cs).1.get? j = some none := by
  refine ⟨?_, ?_, ?_⟩
  · rcases hgc : giveCompliment s e cf t0 r with ⟨o, s'⟩
    cases o with
    | none => rfl
    | some m =>
        obtain ⟨-, -, ⟨τ, hd, -⟩, -, -⟩ := giveCompliment_some_elim hgc
        rw [habs] at hd
        exact absurd hd (by simp)
  · intro hcd hcf
    have hsg : shouldGiveCompliment s e cf t0
        = (false, { s with consecutiveEmotions :=
                      s.consecutiveEmotions ++ [(e, t0)] }) := by
      unfold shouldGiveCompliment
      rw [if_neg hcd, if_neg hcf, habs]
    unfold giveCompliment
    rw [hsg]
    exact dictGet_append_self habs
  · intro cs htime j cj hcj hem hlt
    exact runGive_stable_none cs s e t0
      (fun τ hτ => by rw [habs] at hτ; exact absurd hτ (by simp))
      htime j cj hcj hem hlt

/-- Witness for C4: the first sighting of an untracked label returns
`None`. -/
theorem stability_requirement_witness :
    (giveCompliment (initFeedbackState 0) "happy" 0.9 100 0).1 = none :=
  (stability_requirement (initFeedbackState 0) "happy" 0.9 100 0 rfl).1

/-- Claim C5: when `give_compliment` returns a message, the message comes
from the catalog entry for that emotion, `last_compliment_time` is set to
the call time, the tracking map is cleared, and the cooldown, confidence
and stability conditions held on entry. -/
theorem emission_postcondition (s s' : FeedbackState) (e m : String)
    (cf now : ℚ) (r : Nat)
    (h : giveCompliment s e cf now r = (some m, s')) :
    (∀ msgs, dictGet e COMPLIMENTS = some msgs → m ∈ msgs)
    ∧ s'.lastComplimentTime = now
    ∧ s'.consecutiveEmotions = []
    ∧ COMPLIMENT_COOLDOWN ≤ now - s.lastComplimentTime
    ∧ (0.6 : ℚ) ≤ cf
    ∧ ∃ τ, dictGet e s.consecutiveEmotions = some τ
        ∧ s.emotionStabilityThreshold ≤ now - τ := by
  obtain ⟨h8, hcf, hex, hm, rfl⟩ := giveCompliment_some_elim h
  refine ⟨?_, rfl, rfl, h8, hcf, hex⟩
  intro msgs hmsgs
  rw [hmsgs] at hm
  simpa using hm

/-- Witness for C5 on a concrete successful emission. -/
theorem emission_postcondition_witness :
    "Your radiant smile lights up the entire room! ✨" ∈ happyCompliments :=
  (emission_postcondition ⟨0, 0, [("happy", 100)], 1, 0⟩ ⟨101, 0, [], 1, 0⟩
      "happy" "Your radiant smile lights up the entire room! ✨" 0.9 101 0
      (by norm_num +decide [giveCompliment, shouldGiveCompliment, dictGet,
        COMPLIMENT_COOLDOWN, randomChoice, COMPLIMENTS, happyCompliments])).1
    happyCompliments
    (by norm_num +decide [dictGet, COMPLIMENTS])

/-- Claim C6: within the cooldown window `give_compliment` returns `None`
and changes nothing at all, so repeating the identical call again still
returns `None` from the same state. -/
theorem cooldown_noop (s : FeedbackState) (e : String) (cf now : ℚ)
    (r : Nat) (h : now - s.lastComplimentTime < COMPLIMENT_COOLDOWN) :
    giveCompliment s e cf now r = (none, s)
    ∧ giveCompliment ((giveCompliment s e cf now r).2) e cf now r
        = (none, s) := by
  have h1 : giveCompliment s e cf now r = (none, s) := by
    unfold giveCompliment
    rw [shouldGive_of_cooldown h]
  refine ⟨h1, ?_⟩
  rw [h1]
  exact h1

/-- Witness for C6 at a concrete in-cooldown state. -/
theorem cooldown_noop_witness :
    giveCompliment ⟨100, 0, [("happy", 99)], 1, 0⟩ "happy" 0.9 105 0
      = (none, ⟨100, 0, [("happy", 99)], 1, 0⟩) :=
  (cooldown_noop ⟨100, 0, [("happy", 99)], 1, 0⟩ "happy" 0.9 105 0
    (by norm_num [COMPLIMENT_COOLDOWN])).1

/-- Claim C7: `handle_no_face_detected` returns `None` exactly when less
than `NO_FACE_COOLDOWN = 5` seconds have elapsed since the last no-face
message; otherwise it returns one of the fixed come-back messages and
stamps `last_no_face_message_time`; it never touches the compliment-side
state. -/
theorem no_face_throttling (s : FeedbackState) (now : ℚ) (r : Nat) :
    ((handleNoFaceDetected s now r).1 = none
        ↔ now - s.lastNoFaceMessageTime < NO_FACE_COOLDOWN)
    ∧ (∀ m s', handleNoFaceDetected s now r = (some m, s') →
        m ∈ noFaceMessages ∧ s'.lastNoFaceMessageTime = now)
    ∧ (handleNoFaceDetected s now r).2.lastComplimentTime
        = s.lastComplimentTime
    ∧ (handleNoFaceDetected s now r).2.consecutiveEmotions
        = s.consecutiveEmotions
    ∧ NO_FACE_COOLDOWN = 5 := by
  refine ⟨handleNoFace_none_iff s now r, ?_, (handleNoFace_frame s now r).1,
    (handleNoFace_frame s now r).2.1, rfl⟩
  intro m s' h
  exact handleNoFace_some_elim h

/-- Witness for C7 at a concrete state and time. -/
theorem no_face_throttling_witness :
    (handleNoFaceDetected (initFeedbackState 0) 10 0).1 = none
      ↔ (10 : ℚ) - (initFeedbackState 0).lastNoFaceMessageTime
          < NO_FACE_COOLDOWN :=
  (no_face_throttling (initFeedbackState 0) 10 0).1

/-- Claim C8: for a confidence outside `[0, 1]`, both `give_compliment`
and `update_emotion_tracking` behave exactly as if called with the value
clamped into `[0, 1]` (the confidence is only ever compared against the
0.6 threshold, which clamping preserves). -/
theorem confidence_clamping (s : FeedbackState) (e : String)
    (cf now : ℚ) (r : Nat) (_h : cf < 0 ∨ 1 < cf) :
    giveCompliment s e cf now r = giveCompliment s e (clamp cf 0 1) now r
    ∧ updateEmotionTracking s e cf now
        = updateEmotionTracking s e (clamp cf 0 1) now := by
  have key : (clamp cf 0 1 < (0.6 : ℚ)) = (cf < 0.6) :=
    propext (clamp_lt_threshold_iff cf)
  constructor
  · unfold giveCompliment shouldGiveCompliment
    simp only [key]
  · unfold updateEmotionTracking
    simp only [key]

/-- Witness for C8 at confidence 1.5. -/
theorem confidence_clamping_witness :
    giveCompliment (initFeedbackState 0) "happy" 1.5 100 0
      = giveCompliment (initFeedbackState 0) "happy" (clamp 1.5 0 1) 100 0 :=
  (confidence_clamping (initFeedbackState 0) "happy" 1.5 100 0
    (Or.inr (by norm_num))).1

/-- Claim C9: for valid text with an available engine, `speak_async`
never fails: it clears the queue exactly when more than 3 messages are
pending, appends the new message, and returns `True`; returning `False`
happens exactly when the message is dropped (blank text or no engine),
in which case the state is unchanged. -/
theorem drop_oldest_enqueue (ts : TTSState) (text : String)
    (hb : isBlank text = false) (ha : ts.available = true) :
    (speakAsync ts text).1 = true
    ∧ (speakAsync ts text).2.speechQueue
        = (if 3 < ts.speechQueue.length then [] else ts.speechQueue) ++ [text]
    ∧ text ∈ (speakAsync ts text).2.speechQueue
    ∧ ∀ (ts' : TTSState) (t' : String),
        ((speakAsync ts' t').1 = false
          ↔ (isBlank t' = true ∨ ts'.available = false))
        ∧ ((speakAsync ts' t').1 = false → (speakAsync ts' t').2 = ts') := by
  have hmain : (speakAsync ts text).1 = true
      ∧ (speakAsync ts text).2.speechQueue
          = (if 3 < ts.speechQueue.length then [] else ts.speechQueue)
              ++ [text] := by
    unfold speakAsync
    rw [hb]
    simp only [Bool.false_eq_true, if_false]
    rw [ha]
    simp only [Bool.true_eq_false, if_false]
    by_cases h3 : 3 < ts.speechQueue.length
    · simp [h3]
    · simp only [h3, if_false]
      rw [if_pos (by omega)]
      simp
  refine ⟨hmain.1, hmain.2, ?_, fun ts' t' => speakAsync_false_spec ts' t'⟩
  rw [hmain.2]
  exact List.mem_append_right _ (List.mem_singleton.mpr rfl)

/-- Witness for C9: a near-full queue is cleared and the new message
enqueued. -/
theorem drop_oldest_enqueue_witness :
    (speakAsync ⟨true, ["a", "b", "c", "d"]⟩ "hello").1 = true
    ∧ (speakAsync ⟨true, ["a", "b", "c", "d"]⟩ "hello").2.speechQueue
        = ["hello"] := by
  have h := drop_oldest_enqueue ⟨true, ["a", "b", "c", "d"]⟩ "hello"
    (by decide) rfl
  refine ⟨h.1, ?_⟩
  rw [h.2.1]
  norm_num

/-- Claim C10: blank text (empty or all-whitespace) is always rejected:
`speak_async` returns `False` and leaves the queue unchanged, whatever
the engine availability. -/
theorem blank_text_rejected (ts : TTSState) (text : String)
    (h : isBlank text = true) : speakAsync ts text = (false, ts) := by
  unfold speakAsync
  rw [if_pos h]

/-- Witness for C10 on a whitespace-only string. -/
theorem blank_text_rejected_witness :
    speakAsync ⟨true, ["queued"]⟩ "  " = (false, ⟨true, ["queued"]⟩) :=
  blank_text_rejected ⟨true, ["queued"]⟩ "  " (by decide)

end MoodLyft
